import Mathlib

/-!
Verification development for the PostgreSQL admin-portal repository
(Streamlit pages over psycopg2).  Each definition below is a shallow
embedding of a function or code path of the repository; the theorems
settle the specification's claims about them.

Source files embedded here:
  * `pages/2_Edit_Database.py`  — statement splitting, guarded execution,
    timeout setup, single-transaction vs autocommit batch loops.
  * `pages/3_Browse_Tables.py`  — Arrow-friendly result normalization and
    the ordering heuristic.
  * `pages/6_Delete_Database.py` / `app.py` — protected-database filter.
  * `pages/8_Bulk_Upload_CSV.py` — CSV COPY timeout setup.
-/

namespace Postgre

/-! ## Protected databases (pages/6_Delete_Database.py lines 8-9, app.py lines 225-226)

    protected = {"postgres", "template0", "template1"}
    choices  = [d for d in list_databases() if d not in protected]
-/

def protected_dbs : List String := ["postgres", "template0", "template1"]

/-- The `choices` list in pages/6_Delete_Database.py (and `deletable` in app.py):
the databases offered in the delete select-box. -/
def delete_page_choices (dbs : List String) : List String :=
  dbs.filter (fun d => decide (d ∉ protected_dbs))

/-! ## Batch execution (pages/2_Edit_Database.py lines 199-277)

The per-statement work (issuing SQL over the network) is external to the
repository; it is modelled by a parameter `exec : α → σ → Except ε σ`
taking a statement and a database state to either a new state or an
error.  The two branches of the `Run SQL` handler are embedded directly:

* single-transaction branch (lines 200-241): one `with conn:` block runs
  every statement; any exception is re-raised, which aborts the loop and
  rolls the transaction back, restoring the initial state;
* autocommit branch (lines 242-277): each statement commits on its own;
  every handler ends in `continue`, so a failure only skips that
  statement's rendering and the loop proceeds with the next statement.
-/

/-- What the UI reports for one executed statement: the success rendering
(lines 234-238 / 273-277) or the error rendering (lines 220-232 / 260-271). -/
inductive StmtReport (ε : Type) where
  | success
  | failure (e : ε)
  deriving DecidableEq, Repr

/-- The loop body of the single-transaction branch: run statements until
the first error.  Returns `some` final state when every statement
succeeded (the `with conn:` block then commits), `none` when a statement
raised (the block rolls back), along with the per-statement reports. -/
def run_batch_single_txn_aux {α σ ε : Type} (exec : α → σ → Except ε σ) :
    σ → List α → Option σ × List (StmtReport ε)
  | db, [] => (some db, [])
  | db, s :: rest =>
    match exec s db with
    | .ok db' =>
      let r := run_batch_single_txn_aux exec db' rest
      (r.1, .success :: r.2)
    | .error e => (none, [.failure e])

/-- Single-transaction branch (lines 200-241): commit the final state when
the whole batch succeeded, otherwise roll back to the initial state. -/
def run_batch_single_txn {α σ ε : Type} (exec : α → σ → Except ε σ)
    (db0 : σ) (stmts : List α) : σ × List (StmtReport ε) :=
  match run_batch_single_txn_aux exec db0 stmts with
  | (some dbF, reps) => (dbF, reps)
  | (none, reps) => (db0, reps)

/-- Autocommit branch (lines 242-277): each statement commits
independently; on error the handler `continue`s with the next statement
and the state is unchanged by the failed statement. -/
def run_batch_autocommit {α σ ε : Type} (exec : α → σ → Except ε σ) :
    σ → List α → σ × List (StmtReport ε)
  | db, [] => (db, [])
  | db, s :: rest =>
    match exec s db with
    | .ok db' =>
      let r := run_batch_autocommit exec db' rest
      (r.1, .success :: r.2)
    | .error e =>
      let r := run_batch_autocommit exec db rest
      (r.1, .failure e :: r.2)

/-! ## Timeout scoping (pages/2_Edit_Database.py lines 89-105,
pages/3_Browse_Tables.py lines 248-251, pages/8_Bulk_Upload_CSV.py
lines 101-106)

The relevant PostgreSQL semantics, embedded as a small session machine:

* a `SET` changes a setting for the whole session;
* a `SET LOCAL` changes it only for the current transaction block, and
  **outside a transaction block it is a no-op** (the server raises the
  warning `SET LOCAL can only be used in transaction blocks`);
* with psycopg2 `connection.autocommit = True` no `BEGIN` is sent, so
  every statement runs in its own implicit single-statement transaction:
  a `SET LOCAL` takes effect only inside that implicit transaction, which
  ends immediately — net effect none;
* with `autocommit = False`, psycopg2 opens a transaction block at the
  first statement and keeps it open, so a `SET LOCAL` stays effective for
  the following statements of the transaction;
* while a statement runs, the effective value of a setting is its
  transaction-local value if one was set in the current block, otherwise
  its session value, otherwise the server default (`lock_timeout = 0` and
  `statement_timeout = 0`, meaning no bound). -/

structure PgSession where
  autocommit : Bool
  inTxnBlock : Bool
  sessionLockTimeout : Option Nat
  sessionStmtTimeout : Option Nat
  localLockTimeout : Option Nat
  localStmtTimeout : Option Nat
  deriving DecidableEq, Repr

/-- A fresh connection as returned by `db_utils.get_conn`: no transaction
open, all timeout settings at their server defaults. -/
def freshSession (auto : Bool) : PgSession :=
  { autocommit := auto, inTxnBlock := false
    sessionLockTimeout := none, sessionStmtTimeout := none
    localLockTimeout := none, localStmtTimeout := none }

/-- The timeout-related commands the embedded pages issue. -/
inductive PgCmd where
  | setLocalLock (ms : Nat)
  | setLocalStmt (ms : Nat)
  | setLock (ms : Nat)
  | setStmt (ms : Nat)
  | resetLock
  | resetStmt
  deriving DecidableEq, Repr

/-- Effect of one command when the server processes it (inside whatever
transaction context the session currently has). -/
def applyCmd (s : PgSession) (c : PgCmd) : PgSession :=
  match c with
  | .setLocalLock ms =>
    if s.inTxnBlock then { s with localLockTimeout := some ms } else s
  | .setLocalStmt ms =>
    if s.inTxnBlock then { s with localStmtTimeout := some ms } else s
  | .setLock ms => { s with sessionLockTimeout := some ms }
  | .setStmt ms => { s with sessionStmtTimeout := some ms }
  | .resetLock => { s with sessionLockTimeout := none }
  | .resetStmt => { s with sessionStmtTimeout := none }

/-- Execute one command over psycopg2: in autocommit mode the command is
its own implicit transaction (transaction-local state is discarded as soon
as the command ends); otherwise the driver has opened a transaction block
that stays open. -/
def execCmd (s : PgSession) (c : PgCmd) : PgSession :=
  if s.autocommit then
    let s1 := applyCmd { s with inTxnBlock := true } c
    { s1 with inTxnBlock := false, localLockTimeout := none, localStmtTimeout := none }
  else
    applyCmd { s with inTxnBlock := true } c

def execCmds (s : PgSession) (cs : List PgCmd) : PgSession :=
  cs.foldl execCmd s

/-- The lock-wait bound actually in force while a statement executes on
this session; `none` is the server default, i.e. no bound at all. -/
def effectiveLockTimeout (s : PgSession) : Option Nat :=
  s.localLockTimeout.orElse fun _ => s.sessionLockTimeout

/-- The total-runtime bound actually in force while a statement executes
on this session; `none` means no bound at all. -/
def effectiveStmtTimeout (s : PgSession) : Option Nat :=
  s.localStmtTimeout.orElse fun _ => s.sessionStmtTimeout

/-- pages/3_Browse_Tables.py lines 248-251: the table-browse page opens an
autocommit connection and issues the two `SET LOCAL` commands before
running its SELECT. -/
def browse_tables_prologue : PgSession :=
  execCmds (freshSession true) [.setLocalLock 1500, .setLocalStmt 30000]

/-- pages/8_Bulk_Upload_CSV.py lines 101-106 (`copy_csv`): the COPY runs
on an autocommit connection after two `SET LOCAL` commands. -/
def copy_csv_prologue : PgSession :=
  execCmds (freshSession true) [.setLocalLock 1500, .setLocalStmt 300000]

/-- pages/2_Edit_Database.py lines 89-105 (`_set_timeouts`): `SET LOCAL`
inside a transaction, otherwise plain `SET`; returns whether a `RESET` is
required on exit.  The session argument is the state the connection is in
when `run_one_statement` reaches line 124. -/
def set_timeouts (s : PgSession) (lockMs stmtMs : Nat) (inTxn : Bool) :
    PgSession × Bool :=
  if inTxn then
    (execCmds s [.setLocalLock lockMs, .setLocalStmt stmtMs], false)
  else
    (execCmds s [.setLock lockMs, .setStmt stmtMs], true)

/-- pages/2_Edit_Database.py lines 103-105 (`_reset_timeouts`). -/
def reset_timeouts (s : PgSession) : PgSession :=
  execCmds s [.resetLock, .resetStmt]

/-- The session on which a SQL-runner statement executes in
single-transaction mode: a non-autocommit connection whose transaction
block is already open (the `with conn:` block of line 204), after
`_set_timeouts(..., in_txn=True)`. -/
def sql_runner_txn_session (lockMs stmtMs : Nat) : PgSession :=
  (set_timeouts { freshSession false with inTxnBlock := true } lockMs stmtMs true).1

/-- The session on which a SQL-runner statement executes in autocommit
mode, after `_set_timeouts(..., in_txn=False)`. -/
def sql_runner_autocommit_session (lockMs stmtMs : Nat) : PgSession :=
  (set_timeouts (freshSession true) lockMs stmtMs false).1

/-! ## Statement splitter (pages/2_Edit_Database.py lines 67-87)

`sqlparse.parse` is an external library; it is modelled by a parameter
`parse : String → List String`, and its availability (the `import`
succeeding) by a Boolean.  When the import fails, the code calls
`st.error(...)` and `st.stop()` — the Streamlit script halts and no batch
is produced, modelled as `Except.error ()`. -/

/-- Python `s.rstrip(";")`: drop trailing semicolon characters. -/
def rstripSemicolons (s : String) : String :=
  String.mk ((s.data.reverse.dropWhile (fun c => c == ';')).reverse)

/-- Python `s.strip(";")`: drop leading and trailing semicolon characters. -/
def stripSemicolons (s : String) : String :=
  String.mk
    (((s.data.dropWhile (fun c => c == ';')).reverse.dropWhile
      (fun c => c == ';')).reverse)

/-- Lines 81-87: trim each parsed statement, keep those that are non-empty
once semicolons are stripped, then strip trailing semicolons and trim,
keeping the non-empty ones. -/
def split_postprocess (parsed : List String) : List String :=
  let statements :=
    (parsed.map String.trim).filter (fun s => stripSemicolons s ≠ "")
  (statements.map (fun s => (rstripSemicolons s).trim)).filter (fun s => s ≠ "")

/-- Embedding of `split_sql_statements` (lines 67-87): requires `sqlparse`; with it, the
parsed statements are post-processed; without it the page halts. -/
def split_sql_statements (sqlparseAvailable : Bool)
    (parse : String → List String) (text : String) : Except Unit (List String) :=
  if sqlparseAvailable then
    Except.ok (split_postprocess (parse text))
  else
    Except.error ()

/-! ## Guarded executor (pages/2_Edit_Database.py lines 107-150)

`run_one_statement` executes one statement and classifies the outcome.
The network round-trip is external: the cursor state after `cur.execute`
(column description, fetched rows, rowcount, status message) is the
model's input.  Timing (`elapsed`) is real time and not modelled. -/

structure CursorResult where
  /-- Field for `cur.description`: column names, `[]` when the statement returns no
  row description. -/
  description : List String
  /-- Field for `cur.fetchall()`: every row the statement produced. -/
  rows : List (List String)
  /-- Field for `cur.rowcount`; `-1` when not applicable. -/
  rowcount : Int
  /-- Field for `cur.statusmessage`. -/
  statusmessage : Option String
  deriving DecidableEq, Repr

inductive ExecOutcome where
  /-- kind `"result"`: a DataFrame of columns and rows. -/
  | result (cols : List String) (rows : List (List String))
  /-- kind `"ok"`: a status string. -/
  | ok (msg : String)
  deriving DecidableEq, Repr

/-- Line 142: append the rowcount to the status message unless it is
`-1`/absent. -/
def rowcountSuffix (rc : Int) : String :=
  if rc = -1 then "" else " • rowcount=" ++ toString rc

/-- Embedding of `run_one_statement` (lines 107-150), result classification: if the
statement has a row description, fetch all rows and silently slice to
`max_rows` (lines 132-138); otherwise return the status message with the
row count (lines 139-143). -/
def run_one_statement (cur : CursorResult) (max_rows : Option Nat) :
    ExecOutcome :=
  if cur.description ≠ [] then
    let rows :=
      match max_rows with
      | some m => if 0 < m ∧ m < cur.rows.length then cur.rows.take m else cur.rows
      | none => cur.rows
    ExecOutcome.result cur.description rows
  else
    ExecOutcome.ok ((cur.statusmessage.getD "Command executed.") ++
      rowcountSuffix cur.rowcount)

/-! ## Ordering heuristic (pages/3_Browse_Tables.py lines 139-215)

The catalog queries `get_primary_key_columns` (primary-key column names in
declared order) and `get_columns_with_types` (`(attname, typname)` pairs
in declaration order) read external state; their results are the fields of
`TableMeta`.  `pick_ordering_columns` itself is embedded below.  Python's
`list.sort(key=...)` is a stable sort by key; it is embedded as a stable
insertion sort with the same key comparison. -/

structure TableMeta where
  /-- Result of `get_primary_key_columns` (lines 139-156): the declared
  primary-key columns in declared order, `[]` when there is none. -/
  pkCols : List String
  /-- Result of `get_columns_with_types` (lines 158-174): column name and
  type name, in declaration order. -/
  colsTypes : List (String × String)
  deriving DecidableEq, Repr

/-- Line 176. -/
def COMMON_TS_NAMES : List String :=
  ["created_at", "updated_at", "inserted_at", "createdon", "updatedon",
   "timestamp", "ts", "created", "updated"]

/-- Line 177. -/
def COMMON_ID_NAMES : List String := ["id"]

/-- The timestamp/date type names of line 196. -/
def tsTypeNames : List String :=
  ["timestamptz", "timestamp", "timestampz", "timestamp without time zone",
   "timestamp with time zone", "date"]

/-- The integer-ish type names of line 208. -/
def idTypeNames : List String :=
  ["int2", "int4", "int8", "serial", "bigserial", "numeric"]

/-- Python `str.lower` on one character (ASCII case, which is all the
code's vocabularies use). -/
def lowerChar (c : Char) : Char :=
  if 'A' ≤ c ∧ c ≤ 'Z' then Char.ofNat (c.toNat + 32) else c

/-- Python `s.lower()`. -/
def lowerStr (s : String) : String :=
  String.mk (s.data.map lowerChar)

/-- Python `a <= b` on strings: lexicographic by code point, a proper
prefix comparing smaller. -/
def charsLe : List Char → List Char → Bool
  | [], _ => true
  | _ :: _, [] => false
  | c :: cs, d :: ds => if c = d then charsLe cs ds else decide (c < d)

def strLe (a b : String) : Bool :=
  charsLe a.data b.data

/-- Python `s.endswith(suf)`. -/
def strEndsWith (s suf : String) : Bool :=
  List.isPrefixOf suf.data.reverse s.data.reverse

/-- Stable insertion sort by a Boolean `le`; for a total preorder this
agrees with Python's stable `list.sort`. -/
def insertLe {α : Type} (le : α → α → Bool) (x : α) : List α → List α
  | [] => [x]
  | y :: ys => if le x y then x :: y :: ys else y :: insertLe le x ys

def sortLe {α : Type} (le : α → α → Bool) : List α → List α
  | [] => []
  | x :: xs => insertLe le x (sortLe le xs)

/-- The key comparison of line 200:
`key=lambda n: (0 if n.lower() in COMMON_TS_NAMES else 1, n)`. -/
def ts_sort_le (a b : String) : Bool :=
  let ka : Nat := if COMMON_TS_NAMES.contains (lowerStr a) then 0 else 1
  let kb : Nat := if COMMON_TS_NAMES.contains (lowerStr b) then 0 else 1
  ka < kb || (ka == kb && strLe a b)

/-- The key comparison of line 211:
`key=lambda n: (0 if n.lower() in COMMON_ID_NAMES else 1, n)`. -/
def id_sort_le (a b : String) : Bool :=
  let ka : Nat := if COMMON_ID_NAMES.contains (lowerStr a) then 0 else 1
  let kb : Nat := if COMMON_ID_NAMES.contains (lowerStr b) then 0 else 1
  ka < kb || (ka == kb && strLe a b)

/-- Lines 193-197: the timestamp/date-typed columns, in declaration order. -/
def ts_candidates (t : TableMeta) : List String :=
  (t.colsTypes.filter (fun p => tsTypeNames.contains (lowerStr p.2))).map Prod.fst

/-- Lines 204-209: the id-like numeric columns, in declaration order. -/
def id_candidates (t : TableMeta) : List String :=
  (t.colsTypes.filter (fun p =>
    (COMMON_ID_NAMES.contains (lowerStr p.1) || strEndsWith (lowerStr p.1) "_id") &&
    idTypeNames.contains (lowerStr p.2))).map Prod.fst

/-- Embedding of `pick_ordering_columns` (lines 179-215): primary key, else best
timestamp column, else best id-like column, else `ctid`. -/
def pick_ordering_columns (t : TableMeta) : List String × String :=
  if t.pkCols ≠ [] then (t.pkCols, "primary key")
  else
    match sortLe ts_sort_le (ts_candidates t) with
    | c :: _ => ([c], "timestamp")
    | [] =>
      match sortLe id_sort_le (id_candidates t) with
      | c :: _ => ([c], "id")
      | [] => (["ctid"], "ctid")

/-- Lines 268-275 of the browse page: every chosen ordering column is
rendered `"<column> DESC"` in the final ORDER BY clause. -/
def order_by_exprs (cols : List String) : List String :=
  cols.map (fun c => c ++ " DESC")

/-! ## Result normalizer (pages/3_Browse_Tables.py lines 20-132)

A pandas DataFrame is modelled as a list of columns; a column (`Series`)
is a dtype tag plus a list of cells.  A cell is one of the Python values
the page handles.  Modelling notes:

* `Cell.null` stands for both `None` and float NaN; Python's `str()` of a
  null cell is modelled as `"None"` (pandas renders `None` → `"None"`,
  NaN → `"nan"`; neither parses as a number, a boolean token, or a date,
  which is all the claims depend on).
* Python floats and decimals are modelled as exact rationals; decimal
  NaN/Infinity (which `_normalize_object_cell` keeps as text) is outside
  the model, and `floatToStr` is a schematic rendering of `str(float)`.
* `pd.to_numeric(errors="coerce")` on a string is modelled by `parseNum`
  (optional sign, decimal digits, optional fraction part; scientific
  notation is not exercised by any claim); on numbers/booleans it parses,
  on `None` it gives NaN.
* `pd.to_datetime(errors="coerce")` on a string is modelled by `parseDT`
  (digit run, separator `-` or `/`, digit run, same separator, digit
  run); ints and floats parse (epoch interpretation), booleans coerce to
  `NaT`.  The claims depend only on `"None"`, plain digits and the token
  vocabularies not parsing as dates.
* Acceptance thresholds compare exact ratios (the Python code compares
  float means against `0.5`, `0.6`). -/

inductive Cell where
  | null
  | str (s : String)
  | int (n : Int)
  | float (q : ℚ)
  | bool (b : Bool)
  /-- A dict/list/tuple/set, carrying its `_safe_json_dumps` rendering. -/
  | struct (j : String)
  /-- A `decimal.Decimal` (finite). -/
  | dec (q : ℚ)
  | bytes (bs : List Nat)
  deriving DecidableEq, Repr

inductive Dtype where
  | object
  | int64
  | float64
  | boolDt
  | datetime64
  deriving DecidableEq, Repr

/-- What Python's `str()` shows for a pandas dtype: `"Int64"`, `"boolean"`,
`"float64"`, `"object"`, `"datetime64[ns]"`.  In particular the string for
the nullable-boolean dtype is `"boolean"` (its `name`), not the class name
`"BooleanDtype"`. -/
def dtypeStr : Dtype → String
  | .object => "object"
  | .int64 => "Int64"
  | .float64 => "float64"
  | .boolDt => "boolean"
  | .datetime64 => "datetime64[ns]"

structure Series where
  dtype : Dtype
  cells : List Cell
  deriving DecidableEq, Repr

/-- Python `s.strip()` (ASCII whitespace). -/
def isPyWs (c : Char) : Bool :=
  c == ' ' || c == '\t' || c == '\n' || c == '\r'

def pyStrip (s : String) : String :=
  String.mk (((s.data.dropWhile isPyWs).reverse.dropWhile isPyWs).reverse)

/-- Schematic `str(float)`. -/
def floatToStr (q : ℚ) : String :=
  if q.den = 1 then toString q.num ++ ".0"
  else toString q.num ++ "/" ++ toString q.den

/-- Line 74: `b.hex()` digits. -/
def hexDigit (n : Nat) : Char :=
  if n < 10 then Char.ofNat (48 + n) else Char.ofNat (87 + n)

def byteHexChars (b : Nat) : List Char :=
  [hexDigit ((b / 16) % 16), hexDigit (b % 16)]

/-- Lines 71-77: hex preview of a bytes value, clipped to 64 hex digits,
with a byte-length annotation. -/
def bytesPreview (bs : List Nat) : String :=
  let hx := (bs.map byteHexChars).flatten
  let preview := if hx.length > 64 then hx.take 64 ++ "…".data else hx
  "<" ++ toString bs.length ++ " bytes> 0x" ++ String.mk preview

/-- Embedding of `_normalize_object_cell` (lines 51-78): structured values to their
JSON text, decimals to floats, bytes to a hex preview; everything else
unchanged. -/
def normalizeObjectCell : Cell → Cell
  | .null => .null
  | .struct j => .str j
  | .dec q => .float q
  | .bytes bs => .str (bytesPreview bs)
  | c => c

/-- Python `str()` of a cell (`astype(str)` per element). -/
def cellToStr : Cell → String
  | .null => "None"
  | .str s => s
  | .int n => toString n
  | .float q => floatToStr q
  | .bool b => if b then "True" else "False"
  | .struct j => j
  | .dec q => floatToStr q
  | .bytes bs => bytesPreview bs

/-- Model of `pd.to_numeric(errors="coerce")` on one string (see the modelling
notes): optional sign, then digits with an optional fraction part. -/
def parseNumChars : List Char → Option ℚ
  | cs =>
    let (neg, rest) :=
      match cs with
      | '-' :: r => (true, r)
      | '+' :: r => (false, r)
      | r => (false, r)
    let ip := rest.takeWhile Char.isDigit
    let rest1 := rest.dropWhile Char.isDigit
    let digitsVal : List Char → Nat := fun ds =>
      ds.foldl (fun a c => a * 10 + (c.toNat - 48)) 0
    match rest1 with
    | [] =>
      if ip.isEmpty then none
      else some ((if neg then -1 else 1) * (digitsVal ip : ℚ))
    | '.' :: fr =>
      let fp := fr.takeWhile Char.isDigit
      let rest2 := fr.dropWhile Char.isDigit
      if rest2.isEmpty && !(ip.isEmpty && fp.isEmpty) then
        some ((if neg then -1 else 1) *
          ((digitsVal ip : ℚ) + (digitsVal fp : ℚ) / ((10 : ℚ) ^ fp.length)))
      else none
    | _ => none

def parseNum (s : String) : Option ℚ :=
  parseNumChars (pyStrip s).data

/-- Model of `pd.to_numeric(errors="coerce")` on one cell. -/
def toNumericCell : Cell → Option ℚ
  | .null => none
  | .str s => parseNum s
  | .int n => some (n : ℚ)
  | .float q => some q
  | .bool b => some (if b then 1 else 0)
  | .dec q => some q
  | .struct _ => none
  | .bytes _ => none

/-- Model of `pd.to_datetime(errors="coerce")` succeeding on one string (see the
modelling notes): digits, a separator (`-` or `/`), digits, the same
separator, digits. -/
def parseDT (s : String) : Bool :=
  let cs := s.data
  let d1 := cs.takeWhile Char.isDigit
  match cs.dropWhile Char.isDigit with
  | sep1 :: r2 =>
    if (sep1 == '-' || sep1 == '/') && !d1.isEmpty then
      let d2 := r2.takeWhile Char.isDigit
      match r2.dropWhile Char.isDigit with
      | sep2 :: r4 =>
        if (sep2 == sep1) && !d2.isEmpty then
          let d3 := r4.takeWhile Char.isDigit
          !d3.isEmpty && (r4.dropWhile Char.isDigit).isEmpty
        else false
      | [] => false
    else false
  | [] => false

/-- Model of `pd.to_datetime(errors="coerce")` succeeding on one cell. -/
def toDatetimeCell : Cell → Bool
  | .null => false
  | .str s => parseDT s
  | .int _ => true
  | .float _ => true
  | .bool _ => false
  | .struct _ => false
  | .dec _ => true
  | .bytes _ => false

/-- The datetime64 cell produced for one source cell; the timestamp value
itself is carried as its source text (only the dtype matters downstream). -/
def dtCellValue (c : Cell) : Cell :=
  if toDatetimeCell c then .str (cellToStr c) else .null

/-- Line 20. -/
def TRUE_SET : List String := ["true", "t", "1", "yes", "y"]

/-- Line 21. -/
def FALSE_SET : List String := ["false", "f", "0", "no", "n"]

/-- Line 25/29: `astype(str).str.strip().str.lower()` of one cell. -/
def boolToken (c : Cell) : String :=
  lowerStr (pyStrip (cellToStr c))

/-- Line 25: `s.dropna().astype(str).str.strip().str.lower().unique()`. -/
def boolVals (cells : List Cell) : List String :=
  ((cells.filter (fun c => c ≠ Cell.null)).map boolToken).dedup

/-- Embedding of `_maybe_bool_series` (lines 23-32): a nullable-boolean series when the
de-duplicated lower-cased non-null value set is inside the fixed
vocabulary, the input series otherwise.  (Null cells map through
`astype(str)` to the token `"none"`, which is in neither set, hence
`pd.NA`.) -/
def maybe_bool_series (s : Series) : Series :=
  let vals := boolVals s.cells
  if vals.isEmpty then s
  else if vals.all (fun v => (TRUE_SET ++ FALSE_SET).contains v) then
    { dtype := .boolDt,
      cells := s.cells.map (fun c =>
        let x := boolToken c
        if TRUE_SET.contains x then .bool true
        else if FALSE_SET.contains x then .bool false
        else .null) }
  else s

/-! Datetime heuristic (`_maybe_datetime_series`, lines 34-43). -/

def containsSep (s : String) : Bool :=
  s.data.any (fun c => c == '-' || c == '/' || c == ':')

/-- Line 37: `s.dropna().astype(str).head(20)`. -/
def sampleStrs (cells : List Cell) : List String :=
  ((cells.filter (fun c => c ≠ Cell.null)).map cellToStr).take 20

/-- Line 38: the sampled values contain date/time separators at rate
`>= 0.5` (pandas' mean of an empty sample is NaN, which fails the test). -/
def sampleOK (cells : List Cell) : Bool :=
  let smp := sampleStrs cells
  decide (0 < smp.length) && decide (smp.length ≤ 2 * smp.countP containsSep)

/-- Line 41: `dt.notna().mean() >= 0.6` over the whole column. -/
def dtOK (cells : List Cell) : Bool :=
  decide (0 < cells.length) &&
    decide (3 * cells.length ≤ 5 * cells.countP toDatetimeCell)

def maybe_datetime_series (s : Series) : Series :=
  if sampleOK s.cells then
    if dtOK s.cells then { dtype := .datetime64, cells := s.cells.map dtCellValue }
    else s
  else s

/-! Numeric coercion (lines 103-115). -/

/-- Step 1 of `to_arrow_friendly` (lines 94-97). -/
def step1 (cells : List Cell) : List Cell :=
  cells.map normalizeObjectCell

/-- The `num_try.notna()` count. -/
def numericParsedCount (cells : List Cell) : Nat :=
  cells.countP (fun c => (toNumericCell c).isSome)

/-- Line 106: `num_try.notna().mean() >= 0.6`, the mean running over *all*
entries of the column (an empty mean is NaN and fails the test). -/
def numericAccept (cells : List Cell) : Bool :=
  decide (0 < cells.length) &&
    decide (3 * cells.length ≤ 5 * numericParsedCount cells)

/-- Line 108: `(num_try.dropna() % 1 == 0).all()`. -/
def numericAllIntegral (cells : List Cell) : Bool :=
  cells.all (fun c =>
    match toNumericCell c with
    | some q => q.den == 1
    | none => true)

/-- Lines 109-112 (`astype("Int64")` inside try/except): the cast succeeds
when every parsed value fits in a 64-bit integer. -/
def int64Castable (cells : List Cell) : Bool :=
  cells.all (fun c =>
    match toNumericCell c with
    | some q => decide (q.num.natAbs < 2 ^ 63)
    | none => true)

def toInt64Cells (cells : List Cell) : List Cell :=
  cells.map (fun c =>
    match toNumericCell c with
    | some q => .int q.num
    | none => .null)

def toFloatCells (cells : List Cell) : List Cell :=
  cells.map (fun c =>
    match toNumericCell c with
    | some q => .float q
    | none => .null)

/-- Line 130: `s.astype(str)`. -/
def astypeStrCells (cells : List Cell) : List Cell :=
  cells.map (fun c => .str (cellToStr c))

/-- The per-column body of `to_arrow_friendly` (lines 94-130): normalize
exotic cells, then try numeric, boolean, datetime coercion in order, else
force the column to strings.  Non-object columns are left alone (the loop
guards on `s.dtype == "object"`).

Note the boolean test of line 119 compares `str(bool_try.dtype)` with the
literal `"BooleanDtype"`, while the dtype renders as `"boolean"`. -/
def normalizeColumn (col : Series) : Series :=
  if col.dtype ≠ .object then col
  else
    let s1 := step1 col.cells
    if numericAccept s1 then
      if numericAllIntegral s1 && int64Castable s1 then
        { dtype := .int64, cells := toInt64Cells s1 }
      else
        { dtype := .float64, cells := toFloatCells s1 }
    else
      let bool_try := maybe_bool_series { dtype := .object, cells := s1 }
      if dtypeStr bool_try.dtype == "BooleanDtype" then bool_try
      else
        let dt_try := maybe_datetime_series { dtype := .object, cells := s1 }
        if dt_try.dtype == .datetime64 then dt_try
        else { dtype := .object, cells := astypeStrCells s1 }

/-- Embedding of `to_arrow_friendly` (lines 80-132): the empty-DataFrame guard of line
89, then the per-column pipeline. -/
def to_arrow_friendly (df : List Series) : List Series :=
  if df.all (fun c => c.cells.isEmpty) then df
  else df.map normalizeColumn

end Postgre

namespace Postgre

/-- C10 helper fact: membership in the filtered list. -/
theorem mem_delete_page_choices {dbs : List String} {d : String}
    (h : d ∈ delete_page_choices dbs) : d ∈ dbs ∧ d ∉ protected_dbs := by
  have h' := List.of_mem_filter h
  exact ⟨List.mem_of_mem_filter h, by simpa using h'⟩

/-- C10 — For every list of databases returned by the server, the set of
databases offered for deletion on the delete pages excludes the protected
databases `postgres`, `template0` and `template1`, so a drop of a protected
database can never be initiated through this interface. -/
theorem delete_page_never_offers_protected (dbs : List String) (d : String)
    (h : d ∈ delete_page_choices dbs) :
    d ≠ "postgres" ∧ d ≠ "template0" ∧ d ≠ "template1" := by
  have hnp := (mem_delete_page_choices h).2
  refine ⟨?_, ?_, ?_⟩ <;> intro he <;> subst he <;>
    exact hnp (by simp [protected_dbs])

/-- Witness for C10: on the server list `["mydb", "postgres", "template1"]`
the delete page offers exactly `["mydb"]`, and the theorem applies to it. -/
theorem delete_page_never_offers_protected_witness :
    delete_page_choices ["mydb", "postgres", "template1"] = ["mydb"] ∧
    ("mydb" ≠ "postgres" ∧ "mydb" ≠ "template0" ∧ "mydb" ≠ "template1") := by
  refine ⟨by decide, delete_page_never_offers_protected
    ["mydb", "postgres", "template1"] "mydb" (by decide)⟩

/-- Auxiliary: in the single-transaction loop, a failure report shows up
exactly when the loop stopped at the first failing statement: the report
list is some successes followed by one failure, within the batch length,
and the loop's state result is `none`. -/
theorem run_batch_single_txn_aux_failure {α σ ε : Type}
    (exec : α → σ → Except ε σ) (db : σ) (stmts : List α)
    (h : ∃ e, StmtReport.failure e ∈ (run_batch_single_txn_aux exec db stmts).2) :
    (run_batch_single_txn_aux exec db stmts).1 = none ∧
    ∃ k e, (run_batch_single_txn_aux exec db stmts).2 =
        List.replicate k StmtReport.success ++ [StmtReport.failure e] ∧
      k < stmts.length := by
  induction stmts generalizing db with
  | nil =>
    obtain ⟨e, he⟩ := h
    simp [run_batch_single_txn_aux] at he
  | cons s rest ih =>
    obtain ⟨e, he⟩ := h
    cases hx : exec s db with
    | ok db' =>
      have he' : StmtReport.failure e ∈ (run_batch_single_txn_aux exec db' rest).2 := by
        simp only [run_batch_single_txn_aux, hx] at he
        rcases List.mem_cons.mp he with h1 | h1
        · exact absurd h1 (by intro hh; cases hh)
        · exact h1
      obtain ⟨h1, k, e', h2, h3⟩ := ih db' ⟨e, he'⟩
      refine ⟨?_, k + 1, e', ?_, ?_⟩
      · simp only [run_batch_single_txn_aux, hx]; exact h1
      · simp only [run_batch_single_txn_aux, hx, List.replicate_succ,
          List.cons_append, h2]
      · simpa using Nat.succ_lt_succ h3
    | error e' =>
      refine ⟨?_, 0, e', ?_, ?_⟩
      · simp [run_batch_single_txn_aux, hx]
      · simp [run_batch_single_txn_aux, hx]
      · simp


/-- Auxiliary: the autocommit loop produces one report per statement. -/
theorem run_batch_autocommit_length {α σ ε : Type}
    (exec : α → σ → Except ε σ) (db : σ) (stmts : List α) :
    (run_batch_autocommit exec db stmts).2.length = stmts.length := by
  induction stmts generalizing db with
  | nil => simp [run_batch_autocommit]
  | cons s rest ih =>
    cases hx : exec s db with
    | ok db' => simp [run_batch_autocommit, hx, ih]
    | error e => simp [run_batch_autocommit, hx, ih]

/-- C1 — In single-transaction mode, if any statement of the batch fails
then the whole batch is rolled back: the final state is the initial state,
and the reports are the successes of the statements before the failure
followed by that one failure (no statement after the failing one is
executed).  In autocommit mode every statement gets its own report (one
report per statement of the batch), and a failing statement leaves the
state unchanged while execution continues with the rest of the batch. -/
theorem batch_modes_error_handling {α σ ε : Type}
    (exec : α → σ → Except ε σ) (db0 : σ) (stmts : List α) :
    ((∃ e, StmtReport.failure e ∈ (run_batch_single_txn exec db0 stmts).2) →
      (run_batch_single_txn exec db0 stmts).1 = db0 ∧
      ∃ k e, (run_batch_single_txn exec db0 stmts).2 =
          List.replicate k StmtReport.success ++ [StmtReport.failure e] ∧
        k < stmts.length) ∧
    ((run_batch_autocommit exec db0 stmts).2.length = stmts.length) ∧
    (∀ s rest e, exec s db0 = .error e →
      run_batch_autocommit exec db0 (s :: rest) =
        ((run_batch_autocommit exec db0 rest).1,
          StmtReport.failure e :: (run_batch_autocommit exec db0 rest).2)) := by
  refine ⟨?_, run_batch_autocommit_length exec db0 stmts, ?_⟩
  · intro h
    have h' : ∃ e, StmtReport.failure e ∈ (run_batch_single_txn_aux exec db0 stmts).2 := by
      obtain ⟨e, he⟩ := h
      refine ⟨e, ?_⟩
      unfold run_batch_single_txn at he
      rcases hx : run_batch_single_txn_aux exec db0 stmts with ⟨o, reps⟩
      cases o <;> simpa [hx] using he
    obtain ⟨h1, k, e, h2, h3⟩ := run_batch_single_txn_aux_failure exec db0 stmts h'
    constructor
    · unfold run_batch_single_txn
      rcases hx : run_batch_single_txn_aux exec db0 stmts with ⟨o, reps⟩
      cases o with
      | none => simp
      | some dbF => rw [hx] at h1; simp at h1
    · refine ⟨k, e, ?_, h3⟩
      unfold run_batch_single_txn
      rcases hx : run_batch_single_txn_aux exec db0 stmts with ⟨o, reps⟩
      rw [hx] at h2
      cases o <;> simpa using h2
  · intro s rest e hx
    simp [run_batch_autocommit, hx]

/-- Witness for C1: a concrete three-statement batch whose second statement
fails, over a log-of-naturals state.  Single-transaction mode rolls back to
the empty log and stops after the failure; autocommit mode reports all
three statements. -/
theorem batch_modes_error_handling_witness :
    (run_batch_single_txn
        (fun (s : Option Nat) (db : List Nat) =>
          match s with
          | some n => Except.ok (db ++ [n])
          | none => Except.error "boom")
        [] [some 1, none, some 2]).1 = [] ∧
    (∃ k e, (run_batch_single_txn
        (fun (s : Option Nat) (db : List Nat) =>
          match s with
          | some n => Except.ok (db ++ [n])
          | none => Except.error "boom")
        [] [some 1, none, some 2]).2 =
        List.replicate k StmtReport.success ++ [StmtReport.failure e] ∧
      k < 3) := by
  have h := (batch_modes_error_handling
    (fun (s : Option Nat) (db : List Nat) =>
      match s with
      | some n => Except.ok (db ++ [n])
      | none => Except.error "boom")
    [] [some 1, none, some 2]).1
  have hf : ∃ e, StmtReport.failure e ∈ (run_batch_single_txn
      (fun (s : Option Nat) (db : List Nat) =>
        match s with
        | some n => Except.ok (db ++ [n])
        | none => Except.error "boom")
      [] [some 1, none, some 2]).2 := by
    refine ⟨"boom", ?_⟩
    decide
  obtain ⟨h1, h2⟩ := h hf
  exact ⟨h1, by simpa using h2⟩

/-- C2 — The claim says every guarded execution (SQL runner,
table browse, CSV COPY) runs under an effective lock-wait bound and an
effective total-runtime bound.  Evaluating the embedded code: the SQL
runner's `_set_timeouts` does put both bounds in force (transaction-local
in single-transaction mode, session-wide in autocommit mode), but the
table-browse SELECT and the CSV COPY issue `SET LOCAL` on an autocommit
connection, which PostgreSQL ignores outside a transaction block — both
run with the server defaults, i.e. with **no** lock-wait bound and **no**
runtime bound, contradicting the claim (and the source's own comments
"Fail fast on locks and long scans" / "1.5 s lock_timeout & 5 min
statement_timeout inside COPY"). -/
theorem browse_and_copy_timeouts_not_in_force :
    (effectiveLockTimeout browse_tables_prologue = none ∧
      effectiveStmtTimeout browse_tables_prologue = none) ∧
    (effectiveLockTimeout copy_csv_prologue = none ∧
      effectiveStmtTimeout copy_csv_prologue = none) ∧
    (effectiveLockTimeout (sql_runner_txn_session 2000 30000) = some 2000 ∧
      effectiveStmtTimeout (sql_runner_txn_session 2000 30000) = some 30000) ∧
    (effectiveLockTimeout (sql_runner_autocommit_session 2000 30000) = some 2000 ∧
      effectiveStmtTimeout (sql_runner_autocommit_session 2000 30000) = some 30000) := by
  decide

/-- C4 counterexample — With the tokenizer unavailable, the splitter
does not return any batch for the input `"SELECT 1"`: the page halts with
an error (`st.error` + `st.stop`), refuting the claim that a naive
fallback batch is produced. -/
theorem split_no_fallback_counterexample :
    split_sql_statements false (fun _ => ["SELECT 1"]) "SELECT 1" =
      Except.error () := by
  rfl

/-- C4 (amended) — If `sqlparse` is unavailable the splitter refuses to
split for every input: it reports an error and halts without producing a
batch (there is no naive fallback).  Only when `sqlparse` is available
does it return a batch, namely the parsed statements post-processed as in
lines 81-87. -/
theorem split_requires_sqlparse (parse : String → List String) (text : String) :
    split_sql_statements false parse text = Except.error () ∧
    split_sql_statements true parse text =
      Except.ok (split_postprocess (parse text)) := by
  exact ⟨rfl, rfl⟩

/-- C5 counterexample — Truncation is *not* reported to the caller:
with `max_rows = 2`, executing a statement that yielded three rows
produces an outcome *equal* to the outcome of a statement that yielded
exactly the first two rows, so the caller cannot learn that rows were
dropped.  This refutes the claim's "the fact that truncation occurred is
reported to the caller". -/
theorem truncation_not_reported_counterexample :
    run_one_statement
        { description := ["a"], rows := [["1"], ["2"], ["3"]],
          rowcount := -1, statusmessage := none } (some 2) =
      run_one_statement
        { description := ["a"], rows := [["1"], ["2"]],
          rowcount := -1, statusmessage := none } (some 2) := by
  rfl

/-- C5 (amended) — For every executed statement that returns column
metadata and yields more rows than the positive max-rows bound, the
guarded executor returns a tabular result containing exactly the first
max-rows rows; the truncation is silent — the outcome is identical to
that of the same statement yielding only those first max-rows rows, so no
indication of truncation reaches the caller. -/
theorem run_one_statement_truncates_silently (cur : CursorResult) (m : Nat)
    (hd : cur.description ≠ []) (hm : 0 < m) (hlen : m < cur.rows.length) :
    run_one_statement cur (some m) =
      ExecOutcome.result cur.description (cur.rows.take m) ∧
    run_one_statement cur (some m) =
      run_one_statement { cur with rows := cur.rows.take m } (some m) := by
  constructor
  · simp [run_one_statement, hd, hm, hlen]
  · have htk : (cur.rows.take m).length = m := by
      exact List.length_take_of_le (Nat.le_of_lt hlen)
    simp [run_one_statement, hd, hm, hlen, htk]

/-- Witness for C5 (amended): a concrete three-row result with bound 2. -/
theorem run_one_statement_truncates_silently_witness :
    run_one_statement
        { description := ["a"], rows := [["1"], ["2"], ["3"]],
          rowcount := -1, statusmessage := none } (some 2) =
      ExecOutcome.result ["a"] [["1"], ["2"]] := by
  have h := (run_one_statement_truncates_silently
    { description := ["a"], rows := [["1"], ["2"], ["3"]],
      rowcount := -1, statusmessage := none } 2
    (by decide) (by decide) (by decide)).1
  simpa using h

/-- C3 counterexample — A table with no primary key and the two
timestamp-typed columns `created` and `created_at`: the heuristic sorts
the candidates by `(common-name?, name)` and `"created"` precedes
`"created_at"`, so the ordering returned is `Timestamp(created)`, not the
`Timestamp(created_at)` the claim promises for every table having a
`created_at` timestamp column. -/
theorem pick_ordering_created_at_counterexample :
    pick_ordering_columns
        { pkCols := [],
          colsTypes := [("created", "timestamp"), ("created_at", "timestamp")] } =
      (["created"], "timestamp") ∧
    pick_ordering_columns
        { pkCols := [],
          colsTypes := [("created", "timestamp"), ("created_at", "timestamp")] } ≠
      (["created_at"], "timestamp") := by
  constructor
  · decide
  · decide

/-- C3 (amended) — For every table with a declared primary key the
heuristic returns the primary-key ordering (the PK columns in declared
order, the query builder rendering each one descending).  For a table with
no primary key, among the timestamp/date-typed columns the heuristic
returns the first under the key (is the lower-cased name a common audit
name?, then the name itself); in particular, when `created_at` is the
*only* timestamp-typed column the `Timestamp(created_at)` choice is
returned — but another timestamp column sorting earlier (such as one named
`created`) is chosen instead of `created_at`. -/
theorem pick_ordering_pk_then_created_at (t : TableMeta) :
    (t.pkCols ≠ [] →
      pick_ordering_columns t = (t.pkCols, "primary key") ∧
      order_by_exprs (pick_ordering_columns t).1 =
        t.pkCols.map (fun c => c ++ " DESC")) ∧
    (t.pkCols = [] → ts_candidates t = ["created_at"] →
      pick_ordering_columns t = (["created_at"], "timestamp")) := by
  constructor
  · intro h
    have hp : pick_ordering_columns t = (t.pkCols, "primary key") := by
      simp [pick_ordering_columns, h]
    exact ⟨hp, by rw [hp]; rfl⟩
  · intro h hts
    simp [pick_ordering_columns, h, hts, sortLe, insertLe]

/-- Witness for C3 (amended): a table with primary key `(a, b)` and a
table whose only timestamp-typed column is `created_at`. -/
theorem pick_ordering_pk_then_created_at_witness :
    pick_ordering_columns { pkCols := ["a", "b"], colsTypes := [] } =
      (["a", "b"], "primary key") ∧
    pick_ordering_columns
        { pkCols := [],
          colsTypes := [("note", "text"), ("created_at", "timestamptz")] } =
      (["created_at"], "timestamp") := by
  refine ⟨((pick_ordering_pk_then_created_at
      { pkCols := ["a", "b"], colsTypes := [] }).1 (by decide)).1,
    (pick_ordering_pk_then_created_at
      { pkCols := [],
        colsTypes := [("note", "text"), ("created_at", "timestamptz")] }).2
      (by decide) (by decide)⟩

/-- Helper: `_normalize_object_cell` leaves null and string cells alone. -/
theorem normalizeObjectCell_textual (c : Cell)
    (h : c = Cell.null ∨ ∃ s, c = Cell.str s) : normalizeObjectCell c = c := by
  rcases h with rfl | ⟨s, rfl⟩ <;> rfl

/-- Helper: step 1 is the identity on an all-textual column. -/
theorem step1_textual (cells : List Cell)
    (h : ∀ c ∈ cells, c = Cell.null ∨ ∃ s, c = Cell.str s) :
    step1 cells = cells := by
  unfold step1
  rw [List.map_congr_left (fun c hc => normalizeObjectCell_textual c (h c hc))]
  exact List.map_id cells

/-- Helper: no pandas dtype renders as the class name `"BooleanDtype"`, so
the branch of line 119 is never taken. -/
theorem dtypeStr_ne_BooleanDtype (d : Dtype) :
    (dtypeStr d == "BooleanDtype") = false := by
  cases d <;> rfl

/-- C6 counterexample — The column `["1", null]`: every one of its
non-null values parses as a number (1 of 1, i.e. 100 % ≥ 60 %), yet the
coercion is rejected, because the code computes `num_try.notna().mean()`
over *all* rows (1 of 2 = 50 % < 60 %); the column ends up as text, not as
an integer column. -/
theorem numeric_nonnull_rate_counterexample :
    ([Cell.str "1", Cell.null].filter (fun c => c ≠ Cell.null) = [Cell.str "1"]) ∧
    numericParsedCount [Cell.str "1"] = 1 ∧
    normalizeColumn { dtype := .object, cells := [.str "1", .null] } =
      { dtype := .object, cells := [.str "1", .str "None"] } := by
  refine ⟨by decide, by decide, by decide⟩

/-- C6 (amended) — For every all-textual column, numeric coercion is
accepted if and only if at least 60 % of *all* the column's values (nulls
counted in the denominator as non-parsing) parse as numbers
(`numericAccept`); when accepted, the column becomes the nullable-integer
column exactly when every parsed value is integral and fits a 64-bit
integer (the `astype("Int64")` try/except), and a floating-point column
otherwise. -/
theorem numeric_coercion_threshold (col : Series)
    (hdt : col.dtype = .object)
    (htext : ∀ c ∈ col.cells, c = Cell.null ∨ ∃ s, c = Cell.str s) :
    (((normalizeColumn col).dtype = .int64 ∨ (normalizeColumn col).dtype = .float64) ↔
      numericAccept col.cells = true) ∧
    (numericAccept col.cells = true →
      ((normalizeColumn col).dtype = .int64 ↔
        (numericAllIntegral col.cells && int64Castable col.cells) = true)) := by
  have hs1 : step1 col.cells = col.cells := step1_textual col.cells htext
  have hnc : normalizeColumn col =
      (if numericAccept col.cells then
        if numericAllIntegral col.cells && int64Castable col.cells then
          { dtype := .int64, cells := toInt64Cells col.cells }
        else
          { dtype := .float64, cells := toFloatCells col.cells }
      else
        if dtypeStr (maybe_bool_series { dtype := .object, cells := col.cells }).dtype ==
            "BooleanDtype" then
          maybe_bool_series { dtype := .object, cells := col.cells }
        else
          if (maybe_datetime_series { dtype := .object, cells := col.cells }).dtype ==
              .datetime64 then
            maybe_datetime_series { dtype := .object, cells := col.cells }
          else { dtype := .object, cells := astypeStrCells col.cells }) := by
    unfold normalizeColumn
    rw [hdt]
    simp only [hs1]
    rfl
  rw [hnc, dtypeStr_ne_BooleanDtype]
  by_cases hacc : numericAccept col.cells = true
  · by_cases hint : (numericAllIntegral col.cells && int64Castable col.cells) = true
    · simp [hacc, hint]
    · simp [hacc, hint]
  · by_cases hd : (maybe_datetime_series { dtype := .object, cells := col.cells }).dtype =
        .datetime64
    · simp [hacc, hd]
    · simp [hacc, hd]

/-- Witness for C6 (amended): the column `["1", "2", "x"]` parses at rate
2/3 ≥ 60 %, so by the theorem it is coerced, and to the nullable-integer
dtype. -/
theorem numeric_coercion_threshold_witness :
    ((normalizeColumn { dtype := .object, cells := [.str "1", .str "2", .str "x"] }).dtype =
        Dtype.int64 ∨
      (normalizeColumn { dtype := .object, cells := [.str "1", .str "2", .str "x"] }).dtype =
        Dtype.float64) ∧
    numericAccept [Cell.str "1", Cell.str "2", Cell.str "x"] = true := by
  have h := numeric_coercion_threshold
    { dtype := .object, cells := [.str "1", .str "2", .str "x"] }
    rfl (by intro c hc; fin_cases hc <;> exact Or.inr ⟨_, rfl⟩)
  exact ⟨h.1.mpr (by decide), by decide⟩

/-- C7 — The boolean-vocabulary acceptance rule itself behaves as the
claim states: on the column `["true", "FALSE", "1"]` the de-duplicated
case-insensitive value set is inside the vocabulary and
`_maybe_bool_series` returns a nullable-boolean series.  But the pipeline
then drops it: `to_arrow_friendly` compares `str(bool_try.dtype)` against
the literal `"BooleanDtype"`, while every pandas dtype renders by `name`
(`"boolean"` here), so the comparison is false for every dtype, the
coerced series is discarded, and the column stays text. -/
theorem bool_vocabulary_coercion_dropped :
    (maybe_bool_series
        { dtype := .object, cells := [.str "true", .str "FALSE", .str "1"] }).dtype =
      Dtype.boolDt ∧
    (∀ d : Dtype, (dtypeStr d == "BooleanDtype") = false) ∧
    normalizeColumn { dtype := .object, cells := [.str "true", .str "FALSE", .str "1"] } =
      { dtype := .object, cells := [.str "true", .str "FALSE", .str "1"] } := by
  exact ⟨by decide, dtypeStr_ne_BooleanDtype, by decide⟩

/-- C8 counterexample — The all-null two-row column: no coercion rule
accepts it, but the final `astype(str)` of line 130 turns its null cells
into the literal text `"None"`; the normalized column is text-valued, not
null-valued, refuting the claim's "its cells remain null (not converted to
text)". -/
theorem all_null_column_counterexample :
    normalizeColumn { dtype := .object, cells := [.null, .null] } =
      { dtype := .object, cells := [.str "None", .str "None"] } ∧
    Cell.str "None" ≠ Cell.null := by
  exact ⟨by decide, by decide⟩

/-- C8 (amended) — For every all-null object column: no coercion rule
accepts it vacuously (numeric coercion is rejected, the boolean and
datetime helpers return the series unchanged), but normalization does not
leave the cells null: the final string-forcing step converts every null
cell to the text `"None"`. -/
theorem all_null_column_forced_to_text (col : Series)
    (hdt : col.dtype = .object) (hnull : ∀ c ∈ col.cells, c = Cell.null) :
    numericAccept col.cells = false ∧
    maybe_bool_series { dtype := .object, cells := col.cells } =
      { dtype := .object, cells := col.cells } ∧
    maybe_datetime_series { dtype := .object, cells := col.cells } =
      { dtype := .object, cells := col.cells } ∧
    normalizeColumn col =
      { dtype := Dtype.object, cells := col.cells.map (fun _ => Cell.str "None") } := by
  have hfilter : List.filter (fun c => !decide (c = Cell.null)) col.cells = [] := by
    refine List.filter_eq_nil_iff.mpr ?_
    intro c hc
    simp [hnull c hc]
  have hcount : numericParsedCount col.cells = 0 := by
    unfold numericParsedCount
    refine List.countP_eq_zero.mpr ?_
    intro c hc
    simp [hnull c hc, toNumericCell]
  have hacc : numericAccept col.cells = false := by
    unfold numericAccept
    rw [hcount]
    rcases Nat.eq_zero_or_pos col.cells.length with h0 | hpos
    · simp [h0]
    · have h3 : ¬ (3 * col.cells.length ≤ 5 * 0) := by omega
      simp [h3]
      exact fun _ => List.length_pos.mp hpos
  have hbool : maybe_bool_series { dtype := .object, cells := col.cells } =
      { dtype := .object, cells := col.cells } := by
    unfold maybe_bool_series boolVals
    simp [hfilter]
  have hdtm : maybe_datetime_series { dtype := .object, cells := col.cells } =
      { dtype := .object, cells := col.cells } := by
    unfold maybe_datetime_series sampleOK sampleStrs
    simp [hfilter]
  have hs1 : step1 col.cells = col.cells :=
    step1_textual col.cells (fun c hc => Or.inl (hnull c hc))
  refine ⟨hacc, hbool, hdtm, ?_⟩
  unfold normalizeColumn
  rw [hdt]
  simp only [hs1, hacc, hbool, hdtm, dtypeStr_ne_BooleanDtype]
  simp only [Bool.false_eq_true, if_false, ne_eq, not_true_eq_false]
  have hst : astypeStrCells col.cells = col.cells.map (fun _ => Cell.str "None") := by
    unfold astypeStrCells
    exact List.map_congr_left (fun c hc => by simp [hnull c hc, cellToStr])
  simp [hst, hdtm]

/-- Witness for C8 (amended): the concrete all-null column `[null, null,
null]`. -/
theorem all_null_column_forced_to_text_witness :
    normalizeColumn { dtype := .object, cells := [.null, .null, .null] } =
      { dtype := Dtype.object,
        cells := [Cell.str "None", Cell.str "None", Cell.str "None"] } := by
  have h := (all_null_column_forced_to_text
    { dtype := .object, cells := [.null, .null, .null] } rfl (by decide)).2.2.2
  simpa using h

/-! Helper lemmas for idempotence of the normalizer (C9). -/

/-- Helper: a general prefix-count bound used for the 20-element sample
window — counting `p` over the first `k` elements of a list never exceeds
counting it over the first `k` elements of its `Q`-filtered sublist, when
elements failing `Q` also fail `p`. -/
theorem countP_take_filter_le {α : Type} {p Q : α → Bool}
    (h : ∀ x, Q x = false → p x = false) :
    ∀ (l : List α) (k : Nat),
      (l.take k).countP p ≤ ((l.filter Q).take k).countP p := by
  intro l
  induction l with
  | nil => intro k; simp
  | cons x xs ih =>
    intro k
    cases k with
    | zero => simp
    | succ k =>
      by_cases hq : Q x = true
      · simp only [List.take_succ_cons, List.filter_cons_of_pos hq,
          List.countP_cons]
        exact Nat.add_le_add_right (ih k) _
      · have hQx : Q x = false := Bool.eq_false_iff.mpr hq
        have hpx : p x = false := h x hQx
        rw [List.take_succ_cons, List.filter_cons_of_neg hq, List.countP_cons, hpx]
        simp only [Bool.false_eq_true, if_false, Nat.add_zero]
        calc (xs.take k).countP p
            ≤ ((xs.filter Q).take k).countP p := ih k
          _ ≤ ((xs.filter Q).take (k + 1)).countP p := by
              have hpre : (xs.filter Q).take k <+: (xs.filter Q).take (k + 1) := by
                have h1 := List.take_prefix k ((xs.filter Q).take (k + 1))
                rwa [List.take_take, min_eq_left (Nat.le_succ k)] at h1
              exact hpre.sublist.countP_le p

/-- Helper: every cell of an `astype(str)` column is a string cell, so
`str()` of it is itself and `_normalize_object_cell` leaves it alone. -/
theorem step1_astype (cells : List Cell) :
    step1 (astypeStrCells cells) = astypeStrCells cells := by
  refine step1_textual _ ?_
  intro c hc
  rcases List.mem_map.mp hc with ⟨x, _, rfl⟩
  exact Or.inr ⟨_, rfl⟩

/-- Helper: `astype(str)` is idempotent cell-wise. -/
theorem astypeStrCells_idem (cells : List Cell) :
    astypeStrCells (astypeStrCells cells) = astypeStrCells cells := by
  unfold astypeStrCells
  rw [List.map_map]
  rfl

/-- Helper: if `str()` of a (step-1-normalized) cell reparses as a number,
the cell itself parsed as a number. -/
theorem toNumeric_str_mono (x : Cell) :
    (toNumericCell (Cell.str (cellToStr (normalizeObjectCell x)))).isSome = true →
    (toNumericCell (normalizeObjectCell x)).isSome = true := by
  cases x with
  | null =>
    intro h
    exact absurd h (by decide)
  | str s => exact fun h => h
  | int n => intro _; rfl
  | float q => intro _; rfl
  | bool b => intro _; rfl
  | struct j => exact fun h => h
  | dec q => intro _; rfl
  | bytes bs => exact fun h => h

/-- Helper: if `str()` of a (step-1-normalized) cell reparses as a
datetime, the cell itself parsed as a datetime. -/
theorem toDatetime_str_mono (x : Cell) :
    toDatetimeCell (Cell.str (cellToStr (normalizeObjectCell x))) = true →
    toDatetimeCell (normalizeObjectCell x) = true := by
  cases x with
  | null => intro h; exact absurd h (by decide)
  | str s => exact fun h => h
  | int n => intro _; rfl
  | float q => intro _; rfl
  | bool b =>
    intro h
    cases b <;> exact absurd h (by decide)
  | struct j => exact fun h => h
  | dec q => intro _; rfl
  | bytes bs => exact fun h => h

/-- Helper: forcing a normalized column to strings never increases the
number of numeric-parsing cells. -/
theorem numericParsed_astype_le (cells : List Cell) :
    numericParsedCount (astypeStrCells (step1 cells)) ≤
      numericParsedCount (step1 cells) := by
  unfold numericParsedCount astypeStrCells step1
  rw [List.map_map, List.countP_map, List.countP_map]
  refine List.countP_mono_left ?_
  intro x _
  exact toNumeric_str_mono x

/-- Helper: a rejected numeric coercion stays rejected after the column is
forced to strings. -/
theorem numericAccept_astype_false (cells : List Cell)
    (h : numericAccept (step1 cells) = false) :
    numericAccept (astypeStrCells (step1 cells)) = false := by
  unfold numericAccept at h ⊢
  have hlen : (astypeStrCells (step1 cells)).length = (step1 cells).length := by
    unfold astypeStrCells
    exact List.length_map _ _
  rw [hlen]
  rcases Bool.and_eq_false_iff.mp h with h1 | h1
  · rw [Bool.and_eq_false_iff]
    exact Or.inl h1
  · rw [Bool.and_eq_false_iff]
    refine Or.inr ?_
    have hle := numericParsed_astype_le cells
    simp only [decide_eq_false_iff_not, not_le] at h1 ⊢
    omega

/-- Helper: forcing a normalized column to strings never increases the
number of datetime-parsing cells. -/
theorem dtParsed_astype_le (cells : List Cell) :
    (astypeStrCells (step1 cells)).countP toDatetimeCell ≤
      (step1 cells).countP toDatetimeCell := by
  unfold astypeStrCells step1
  rw [List.map_map, List.countP_map, List.countP_map]
  refine List.countP_mono_left ?_
  intro x _
  exact toDatetime_str_mono x

/-- Helper: a rejected datetime parse ratio stays rejected after the
column is forced to strings. -/
theorem dtOK_astype_false (cells : List Cell)
    (h : dtOK (step1 cells) = false) :
    dtOK (astypeStrCells (step1 cells)) = false := by
  unfold dtOK at h ⊢
  have hlen : (astypeStrCells (step1 cells)).length = (step1 cells).length := by
    unfold astypeStrCells
    exact List.length_map _ _
  rw [hlen]
  rcases Bool.and_eq_false_iff.mp h with h1 | h1
  · exact Bool.and_eq_false_iff.mpr (Or.inl h1)
  · refine Bool.and_eq_false_iff.mpr (Or.inr ?_)
    have hle := dtParsed_astype_le cells
    simp only [decide_eq_false_iff_not, not_le] at h1 ⊢
    omega

/-- Helper: the separator-sample test of `_maybe_datetime_series`, once
failed, keeps failing after the column is forced to strings (null cells
only add `"None"` samples, which contain no separators, and the 20-element
window over the unfiltered list only loses separator hits). -/
theorem sampleOK_astype_false (cells : List Cell)
    (h : sampleOK (step1 cells) = false) :
    sampleOK (astypeStrCells (step1 cells)) = false := by
  have hfilter2 : List.filter (fun c => decide (c ≠ Cell.null))
      (astypeStrCells (step1 cells)) = astypeStrCells (step1 cells) := by
    refine List.filter_eq_self.mpr ?_
    intro c hc
    rcases List.mem_map.mp hc with ⟨x, _, rfl⟩
    simp
  have hs2 : sampleStrs (astypeStrCells (step1 cells)) =
      List.map cellToStr (List.take 20 (step1 cells)) := by
    unfold sampleStrs
    rw [hfilter2]
    unfold astypeStrCells
    rw [List.map_map]
    have hcomp : (cellToStr ∘ fun c => Cell.str (cellToStr c)) = cellToStr := rfl
    rw [hcomp, List.map_take]
  have hs1 : sampleStrs (step1 cells) =
      List.map cellToStr
        (List.take 20 (List.filter (fun c => decide (c ≠ Cell.null)) (step1 cells))) := by
    unfold sampleStrs
    rw [List.map_take]
  have hc2 : (sampleStrs (astypeStrCells (step1 cells))).countP containsSep =
      (List.take 20 (step1 cells)).countP (fun c => containsSep (cellToStr c)) := by
    rw [hs2, List.countP_map]
    rfl
  have hc1 : (sampleStrs (step1 cells)).countP containsSep =
      (List.take 20 (List.filter (fun c => decide (c ≠ Cell.null))
        (step1 cells))).countP (fun c => containsSep (cellToStr c)) := by
    rw [hs1, List.countP_map]
    rfl
  have hmono : (sampleStrs (astypeStrCells (step1 cells))).countP containsSep ≤
      (sampleStrs (step1 cells)).countP containsSep := by
    rw [hc1, hc2]
    refine countP_take_filter_le ?_ (step1 cells) 20
    intro x hx
    have hxn : x = Cell.null := by
      simpa using hx
    subst hxn
    rfl
  have hlen1 : (sampleStrs (step1 cells)).length =
      min 20 (List.filter (fun c => decide (c ≠ Cell.null)) (step1 cells)).length := by
    rw [hs1, List.length_map, List.length_take]
  have hlen2 : (sampleStrs (astypeStrCells (step1 cells))).length =
      min 20 (step1 cells).length := by
    rw [hs2, List.length_map, List.length_take]
  have hlenle : (sampleStrs (step1 cells)).length ≤
      (sampleStrs (astypeStrCells (step1 cells))).length := by
    rw [hlen1, hlen2]
    exact min_le_min_left 20 (List.length_filter_le _ _)
  have hcle : (sampleStrs (step1 cells)).countP containsSep ≤
      (sampleStrs (step1 cells)).length :=
    List.countP_le_length containsSep
  simp only [sampleOK, Bool.and_eq_false_iff, decide_eq_false_iff_not, not_lt,
    not_le] at h ⊢
  omega

/-- Helper: the datetime helper accepts (produces a datetime64 column)
exactly when both the separator sample test and the parse-ratio test pass. -/
theorem maybe_datetime_dtype_eq (cells : List Cell) :
    ((maybe_datetime_series { dtype := Dtype.object, cells := cells }).dtype =
        Dtype.datetime64) ↔ (sampleOK cells && dtOK cells) = true := by
  unfold maybe_datetime_series
  by_cases h1 : sampleOK cells = true
  · by_cases h2 : dtOK cells = true
    · simp [h1, h2]
    · simp [h1, h2]
  · simp [h1]

/-- Helper: the full if-chain of `to_arrow_friendly` on an object column,
with the dead boolean branch of line 119 already eliminated. -/
theorem normalizeColumn_object_eq (cells : List Cell) :
    normalizeColumn { dtype := Dtype.object, cells := cells } =
      (if numericAccept (step1 cells) then
        if numericAllIntegral (step1 cells) && int64Castable (step1 cells) then
          { dtype := Dtype.int64, cells := toInt64Cells (step1 cells) }
        else { dtype := Dtype.float64, cells := toFloatCells (step1 cells) }
      else
        if (maybe_datetime_series { dtype := Dtype.object, cells := step1 cells }).dtype =
            Dtype.datetime64 then
          maybe_datetime_series { dtype := Dtype.object, cells := step1 cells }
        else { dtype := Dtype.object, cells := astypeStrCells (step1 cells) }) := by
  unfold normalizeColumn
  simp only [ne_eq, not_true_eq_false, if_false, dtypeStr_ne_BooleanDtype,
    Bool.false_eq_true, beq_iff_eq]

/-- Helper: the datetime helper keeps the column length. -/
theorem maybe_datetime_cells_length (s : Series) :
    (maybe_datetime_series s).cells.length = s.cells.length := by
  unfold maybe_datetime_series
  by_cases h1 : sampleOK s.cells = true
  · by_cases h2 : dtOK s.cells = true
    · simp [h1, h2]
    · simp [h1, h2]
  · simp [h1]

/-- Helper: normalization keeps the column length (every branch maps the
cells elementwise). -/
theorem normalizeColumn_cells_length (col : Series) :
    (normalizeColumn col).cells.length = col.cells.length := by
  by_cases hobj : col.dtype = Dtype.object
  · obtain ⟨d, cls⟩ := col
    simp only at hobj
    subst hobj
    rw [normalizeColumn_object_eq]
    have hstep : (step1 cls).length = cls.length := List.length_map _ _
    by_cases hacc : numericAccept (step1 cls) = true
    · by_cases hint : (numericAllIntegral (step1 cls) && int64Castable (step1 cls)) = true
      · simp [hacc, hint, toInt64Cells, hstep]
      · simp [hacc, hint, toFloatCells, hstep]
    · by_cases hdt : (maybe_datetime_series
          { dtype := Dtype.object, cells := step1 cls }).dtype = Dtype.datetime64
      · simp only [hacc, Bool.false_eq_true, if_false, hdt, if_true]
        rw [maybe_datetime_cells_length]
        exact hstep
      · simp [hacc, hdt, astypeStrCells, hstep]
  · have h1 : normalizeColumn col = col := by
      unfold normalizeColumn
      simp [hobj]
    rw [h1]

/-- Helper: normalizing a column is idempotent. -/
theorem normalizeColumn_idem (col : Series) :
    normalizeColumn (normalizeColumn col) = normalizeColumn col := by
  by_cases hobj : col.dtype = Dtype.object
  · obtain ⟨d, cls⟩ := col
    change d = Dtype.object at hobj
    subst hobj
    rw [normalizeColumn_object_eq]
    by_cases hacc : numericAccept (step1 cls) = true
    · rw [if_pos hacc]
      by_cases hint : (numericAllIntegral (step1 cls) && int64Castable (step1 cls)) = true
      · rw [if_pos hint]
        unfold normalizeColumn
        simp
      · rw [if_neg hint]
        unfold normalizeColumn
        simp
    · rw [if_neg hacc]
      by_cases hdt : (maybe_datetime_series
          { dtype := Dtype.object, cells := step1 cls }).dtype = Dtype.datetime64
      · rw [if_pos hdt]
        unfold normalizeColumn
        simp [hdt]
      · rw [if_neg hdt]
        rw [normalizeColumn_object_eq, step1_astype]
        have hacc2 : ¬ numericAccept (astypeStrCells (step1 cls)) = true := by
          rw [numericAccept_astype_false cls (Bool.eq_false_iff.mpr hacc)]
          exact Bool.false_ne_true
        rw [if_neg hacc2]
        have hrej : (sampleOK (step1 cls) && dtOK (step1 cls)) = false :=
          Bool.eq_false_iff.mpr
            (fun hcon => hdt ((maybe_datetime_dtype_eq (step1 cls)).mpr hcon))
        have hdt2 : ¬ (maybe_datetime_series
            { dtype := Dtype.object,
              cells := astypeStrCells (step1 cls) }).dtype = Dtype.datetime64 := by
          rw [maybe_datetime_dtype_eq]
          intro hcon
          rw [Bool.and_eq_true] at hcon
          rcases hcon with ⟨h1, h2⟩
          rcases Bool.and_eq_false_iff.mp hrej with hs | hd
          · rw [sampleOK_astype_false cls hs] at h1
            exact Bool.false_ne_true h1
          · rw [dtOK_astype_false cls hd] at h2
            exact Bool.false_ne_true h2
        rw [if_neg hdt2, astypeStrCells_idem]
  · have h1 : normalizeColumn col = col := by
      unfold normalizeColumn
      simp [hobj]
    rw [h1]
    exact h1

/-- C9 — The result normalizer is idempotent: for every input table,
applying `to_arrow_friendly` to its own output yields exactly that output
(same column dtypes and same cell values).  Once a column has been
coerced (nullable integer, float, datetime) the second pass skips it as
non-object; a column that failed every coercion and was forced to strings
fails every coercion again (null cells have become the literal `"None"`,
which parses as neither number, boolean token, nor date, and the sample
and ratio tests only lose hits), and forcing it to strings again is the
identity. -/
theorem to_arrow_friendly_idempotent (df : List Series) :
    to_arrow_friendly (to_arrow_friendly df) = to_arrow_friendly df := by
  unfold to_arrow_friendly
  by_cases hemp : (df.all fun c => c.cells.isEmpty) = true
  · simp [hemp]
  · have hpt : ∀ c : Series, (normalizeColumn c).cells.isEmpty = c.cells.isEmpty := by
      intro c
      have hlen := normalizeColumn_cells_length c
      cases h2 : (normalizeColumn c).cells.isEmpty <;>
        cases h3 : c.cells.isEmpty <;> try rfl
      · rw [List.isEmpty_iff_length_eq_zero] at h3
        rw [← Bool.not_eq_true, List.isEmpty_iff_length_eq_zero] at h2
        exact absurd (hlen.trans h3) h2
      · rw [List.isEmpty_iff_length_eq_zero] at h2
        rw [← Bool.not_eq_true, List.isEmpty_iff_length_eq_zero] at h3
        exact absurd (hlen.symm.trans h2) h3
    have hemp2 : ((df.map normalizeColumn).all fun c => c.cells.isEmpty) =
        (df.all fun c => c.cells.isEmpty) := by
      rw [List.all_map]
      exact congrArg df.all (funext hpt)
    rw [if_neg hemp]
    rw [if_neg (hemp2 ▸ hemp)]
    rw [List.map_map]
    exact List.map_congr_left (fun c _ => normalizeColumn_idem c)
